import Mathlib

/-!
Shallow embedding of the Nokufind library (Post.py, Finder.py) and proofs
about the behaviour its specification describes.

Conventions of the embedding:
* Python exceptions become an explicit error type `PyErr`; a Python function
  that may raise returns `Except PyErr _`.
* Python `None` becomes `Option.none`; a `str | None` parameter becomes
  `Option String`.
* Python lists become Lean lists; `dict` payloads for posts become a record
  of `Option` fields (`PostDict`), the outer `Option` recording whether the
  key is present.
* Network requests, threads and the filesystem are outside the model; where
  the source spawns a background thread (md5 generation) the model records
  that it was spawned (`md5_pending`) and keeps the state the constructor
  left behind.
-/

namespace Nokufind

/-- Model of Python `str.lower` (ASCII range, which covers every string the
rating table compares against): lowercase each character. -/
def str_lower (s : String) : String := String.mk (s.data.map Char.toLower)

/-- Model of Python `str.endswith` : suffix test on the character list. -/
def str_endswith (s suffix : String) : Bool := suffix.data.isSuffixOf s.data

/-- Helper for `pySplit`: walk the characters, cutting at each separator;
the accumulator holds the current piece reversed. -/
def pySplitAux (sep : Char) : List Char → List Char → List String
  | [], acc => [String.mk acc.reverse]
  | c :: cs, acc =>
      if c = sep then String.mk acc.reverse :: pySplitAux sep cs []
      else pySplitAux sep cs (c :: acc)

/-- Model of Python `str.split(sep)` for a one-character separator.  Like
Python (and unlike nothing here), `"".split("/") == [""]` and the result
is never the empty list. -/
def pySplit (sep : Char) (s : String) : List String := pySplitAux sep s.data []

/-- Rating enum of Post.py (lines 38-43): GENERAL = 1, SENSITIVE = 2,
QUESTIONABLE = 3, EXPLICIT = 4, UNKNOWN = 5. -/
inductive Rating where
  | GENERAL
  | SENSITIVE
  | QUESTIONABLE
  | EXPLICIT
  | UNKNOWN
deriving DecidableEq, Repr

/-- Python exceptions that the modelled code can raise. -/
inductive PyErr where
  | keyError (key : String)
  | indexError (msg : String)
  | attributeError (msg : String)
deriving DecidableEq, Repr

/-- Raw bytes of a fetched image, abstracted. -/
abbrev Bytes := List Nat

instance {ε α : Type} [DecidableEq ε] [DecidableEq α] :
    DecidableEq (Except ε α) := fun x y =>
  match x, y with
  | Except.ok a, Except.ok b =>
      if h : a = b then isTrue (by rw [h]) else isFalse (by simp [h])
  | Except.error a, Except.error b =>
      if h : a = b then isTrue (by rw [h]) else isFalse (by simp [h])
  | Except.ok _, Except.error _ => isFalse (by simp)
  | Except.error _, Except.ok _ => isFalse (by simp)

namespace Post

/-- Class variable `_Post__rating_general` (Post.py line 84). -/
def rating_general : List String := ["s", "safe", "general", "g"]

/-- Class variable `_Post__rating_sensitive` (Post.py line 85). -/
def rating_sensitive : List String := ["sensitive", "s"]

/-- Class variable `_Post__rating_questionable` (Post.py line 86). -/
def rating_questionable : List String := ["questionable", "q"]

/-- Class variable `_Post__rating_explicit` (Post.py line 87). -/
def rating_explicit : List String := ["e", "explicit"]

/-- Embedding of `Post._get_rating` (Post.py lines 136-166): `None` maps to
UNKNOWN, otherwise the string is lowercased and looked up in the four class
lists in order, defaulting to UNKNOWN. -/
def get_rating : Option String → Rating
  | none => Rating.UNKNOWN
  | some rating_string =>
      let rs := str_lower rating_string
      if rs ∈ rating_general then Rating.GENERAL
      else if rs ∈ rating_sensitive then Rating.SENSITIVE
      else if rs ∈ rating_questionable then Rating.QUESTIONABLE
      else if rs ∈ rating_explicit then Rating.EXPLICIT
      else Rating.UNKNOWN

end Post

/-- The `rating` argument of `Post.__init__` is `str | None` at the
annotation but the body also accepts an already-built `Rating`
(line 202: `Post._get_rating(rating) if type(rating) != Rating else rating`). -/
inductive RatingArg where
  | str (s : String)
  | null
  | enum (r : Rating)
deriving DecidableEq, Repr

/-- Line 202 of Post.py: keep a `Rating` as-is, otherwise run `_get_rating`. -/
def ratingOf : RatingArg → Rating
  | RatingArg.enum r => r
  | RatingArg.str s => Post.get_rating (some s)
  | RatingArg.null => Post.get_rating none

/-- Python `f"Post #{post_id}"`: string concatenation with the decimal id. -/
def defaultName (pid : Int) : String := "Post #" ++ toString pid

/-- Line 207 of Post.py: `f"Post #{post_id}" if not name else name`.
Python treats both `None` and the empty string as falsy. -/
def nameOf (pid : Int) : Option String → String
  | none => defaultName pid
  | some n => if n = "" then defaultName pid else n

/-- Line 206 of Post.py: `url.split("/")[-1]`. Python's `str.split` never
returns an empty list, so the `getLastD` default is never used. -/
def filenameOf (url : String) : String := (pySplit '/' url).getLastD ""

/-- Condition of line 224 of Post.py:
`type(md5) != list or len(md5) == 0 or md5[0] == None`.
The argument is `none` when the caller passed `None` (or any non-list). -/
def md5Invalid : Option (List (Option String)) → Bool
  | none => true
  | some [] => true
  | some (none :: _) => true
  | some (some _ :: _) => false

/-- Lines 201 and 224-226 of Post.py: the stored `md5` entry is the argument
as given, except that an invalid argument resets it to `[]` (after which a
background `_generate_md5` thread is spawned; its later network writes are
outside this model). -/
def md5Of (m : Option (List (Option String))) : List (Option String) :=
  if md5Invalid m then [] else m.getD []

/-- The persistent `self.__post_data` dictionary a successful
`Post.__init__` leaves behind (Post.py lines 193-208), with each key as a
typed field. -/
structure PostData where
  post_id : Int
  tags : List String
  sources : List String
  images : List String
  authors : List String
  source : String
  preview : String
  md5 : List (Option String)
  rating : Rating
  parent_id : Option Int
  poster : String
  poster_id : Int
  filenames : List String
  name : String
  dimensions : List (Int × Int)
deriving DecidableEq, Repr

/-- A constructed Post object: the `__post_data` dict plus the derived and
transient per-object state of lines 211-221 of Post.py. The transient
`__parent`, `__children`, `__headers` and `__cookies` slots (always
initialised to nothing and never exported) are omitted. `inner_executor`
records whether `self.__inner_executor` holds an executor object (truthy)
or `None`; `md5_pending` records that the constructor spawned the md5
generation thread. -/
structure Post where
  post_data : PostData
  image : String
  is_video : Bool
  is_zip : Bool
  data : List (Option Bytes)
  fetched_data : Bool
  inner_executor : Bool
  should_cancel : Bool
  md5_pending : Bool
deriving DecidableEq, Repr

/-- The keyword arguments of `Post.__init__` (Post.py line 168). -/
structure PostArgs where
  post_id : Int
  tags : List String
  sources : List String
  images : List String
  authors : List String
  source : String
  preview : String
  md5 : Option (List (Option String))
  rating : RatingArg
  parent_id : Option Int
  dimensions : List (Int × Int)
  poster : String
  poster_id : Int
  name : Option String
deriving Repr

/-- Embedding of `Post.__init__` (Post.py lines 168-232).  All
`__post_data` assignments are total; the first possible failure is
`self.__image = images[0]` at line 211, which raises `IndexError` when
`images` is empty.  On success the object state matches lines 193-226,
including the md5 normalisation of lines 224-226. -/
def mk_post (a : PostArgs) : Except PyErr Post :=
  let rating := ratingOf a.rating
  let filenames := a.images.map filenameOf
  let name := nameOf a.post_id a.name
  match a.images with
  | [] => Except.error (PyErr.indexError "list index out of range")
  | img0 :: rest =>
      Except.ok {
        post_data := {
          post_id := a.post_id
          tags := a.tags
          sources := a.sources
          images := img0 :: rest
          authors := a.authors
          source := a.source
          preview := a.preview
          md5 := md5Of a.md5
          rating := rating
          parent_id := a.parent_id
          poster := a.poster
          poster_id := a.poster_id
          filenames := filenames
          name := name
          dimensions := a.dimensions }
        image := img0
        is_video := str_endswith img0 ".mp4"
        is_zip := str_endswith img0 ".zip"
        data := []
        fetched_data := false
        inner_executor := false
        should_cancel := false
        md5_pending := md5Invalid a.md5 }

/-- A JSON-like post dictionary, as consumed by `Post.import_post` and
produced by the `post_dict` property.  The outer `Option` of each field
records whether the key is present; a second `Option` layer appears where
the stored Python value itself may be `None` (`md5`, `parent_id`, `name`).
The `rating` value is the already-converted enum: `Rating(data["rating"])`
is the identity on a `Rating` and maps the exported integer back to the
same enum member. -/
structure PostDict where
  post_id : Option Int := none
  tags : Option (List String) := none
  sources : Option (List String) := none
  images : Option (List String) := none
  authors : Option (List String) := none
  source : Option String := none
  preview : Option String := none
  md5 : Option (Option (List (Option String))) := none
  rating : Option Rating := none
  parent_id : Option (Option Int) := none
  poster : Option String := none
  poster_id : Option Int := none
  filenames : Option (List String) := none
  name : Option (Option String) := none
  dimensions : Option (List (Int × Int)) := none
deriving DecidableEq, Repr

/-- Outcome of `Post.import_post`: either a Post, or the `None` return of
the `except KeyError` handler (lines 132-134), which logs
`Post data is invalid. Missing key: <key>` — `invalid` carries that key. -/
inductive ImportResult where
  | ok (p : Post)
  | invalid (missing_key : String)
deriving DecidableEq, Repr

/-- Embedding of `Post.import_post` on dict input (Post.py lines 101-134).
The keyword arguments of the `Post(...)` call are evaluated in source
order, so the first absent key raises `KeyError`, which the handler turns
into a logged message naming that key and a `None` return.  Exceptions
other than `KeyError` (such as the constructor's `IndexError`) are not
caught and propagate. -/
def import_post (d : PostDict) : Except PyErr ImportResult :=
  match d.post_id with
  | none => Except.ok (ImportResult.invalid "post_id")
  | some post_id =>
  match d.tags with
  | none => Except.ok (ImportResult.invalid "tags")
  | some tags =>
  match d.sources with
  | none => Except.ok (ImportResult.invalid "sources")
  | some sources =>
  match d.images with
  | none => Except.ok (ImportResult.invalid "images")
  | some images =>
  match d.authors with
  | none => Except.ok (ImportResult.invalid "authors")
  | some authors =>
  match d.source with
  | none => Except.ok (ImportResult.invalid "source")
  | some source =>
  match d.preview with
  | none => Except.ok (ImportResult.invalid "preview")
  | some preview =>
  match d.md5 with
  | none => Except.ok (ImportResult.invalid "md5")
  | some md5 =>
  match d.rating with
  | none => Except.ok (ImportResult.invalid "rating")
  | some rating =>
  match d.parent_id with
  | none => Except.ok (ImportResult.invalid "parent_id")
  | some parent_id =>
  match d.dimensions with
  | none => Except.ok (ImportResult.invalid "dimensions")
  | some dimensions =>
  match d.poster with
  | none => Except.ok (ImportResult.invalid "poster")
  | some poster =>
  match d.poster_id with
  | none => Except.ok (ImportResult.invalid "poster_id")
  | some poster_id =>
  match d.name with
  | none => Except.ok (ImportResult.invalid "name")
  | some name =>
    (mk_post {
      post_id := post_id
      tags := tags
      sources := sources
      images := images
      authors := authors
      source := source
      preview := preview
      md5 := md5
      rating := RatingArg.enum rating
      parent_id := parent_id
      dimensions := dimensions
      poster := poster
      poster_id := poster_id
      name := name }).map ImportResult.ok

/-- The specification's notion of "first missing required field": the
required keys in the order `import_post` accesses them. -/
def firstMissingKey (d : PostDict) : Option String :=
  if d.post_id.isNone then some "post_id"
  else if d.tags.isNone then some "tags"
  else if d.sources.isNone then some "sources"
  else if d.images.isNone then some "images"
  else if d.authors.isNone then some "authors"
  else if d.source.isNone then some "source"
  else if d.preview.isNone then some "preview"
  else if d.md5.isNone then some "md5"
  else if d.rating.isNone then some "rating"
  else if d.parent_id.isNone then some "parent_id"
  else if d.dimensions.isNone then some "dimensions"
  else if d.poster.isNone then some "poster"
  else if d.poster_id.isNone then some "poster_id"
  else if d.name.isNone then some "name"
  else none

/-- Embedding of the `post_dict` property (Post.py lines 503-510): a copy
of `self.__post_data`, every key present.  This is also exactly what
`export_post` serialises (line 369). -/
def Post.post_dict (p : Post) : PostDict :=
  { post_id := some p.post_data.post_id
    tags := some p.post_data.tags
    sources := some p.post_data.sources
    images := some p.post_data.images
    authors := some p.post_data.authors
    source := some p.post_data.source
    preview := some p.post_data.preview
    md5 := some (some p.post_data.md5)
    rating := some p.post_data.rating
    parent_id := some p.post_data.parent_id
    poster := some p.post_data.poster
    poster_id := some p.post_data.poster_id
    filenames := some p.post_data.filenames
    name := some (some p.post_data.name)
    dimensions := some p.post_data.dimensions }

/-! ## Finder.py -/

/-- A registered subfinder's `search_posts` method, as the fan-out sees it:
given the (alias-rewritten) tags it either returns a list of posts or
raises. `limit` and `page` are forwarded untouched and folded into the
function. -/
abbrev SearchFun := String → Except String (List Post)

/-- A registered subfinder's `get_post` method: `Post | None` for a given
id (exceptions are outside the scope of the lookup claims). -/
abbrev GetPostFun := Int → Option Post

/-- Lines 156-157 / 167-168 of Finder.py: successive
`result_tags = result_tags.replace(tag, alias)` over a client's alias
table. -/
def applyAliases (al : List (String × String)) (tags : String) : String :=
  al.foldl (fun t p => t.replace p.1 p.2) tags

namespace Finder

/-- Embedding of the unscoped branch of `Finder.search_posts`
(Finder.py lines 161-175): iterate `self.__clients.items()` in
registration order, rewrite the tags through that client's aliases, call
its `search_posts`, and append the results.  There is no `try`/`except`
around the call, so an exception from any subfinder propagates and aborts
the whole loop. `aliases` maps a client name to its alias table. -/
def search_posts_fanout (aliases : String → List (String × String)) :
    List (String × SearchFun) → String → Except String (List Post)
  | [], _ => Except.ok []
  | (name, sf) :: rest, tags =>
      match sf (applyAliases (aliases name) tags) with
      | Except.error e => Except.error e
      | Except.ok posts =>
          match search_posts_fanout aliases rest tags with
          | Except.error e => Except.error e
          | Except.ok all => Except.ok (posts ++ all)

/-- Embedding of the unscoped branch of `Finder.get_post`
(Finder.py lines 191-197): scan `self.__clients.values()` in registration
order, return the first result that is not `None`, else `None`. -/
def get_post_fanout : List (String × GetPostFun) → Int → Option Post
  | [], _ => none
  | (_, sf) :: rest, post_id =>
      match sf post_id with
      | some post => some post
      | none => get_post_fanout rest post_id

end Finder

/-! ## Cancellation state (Post.cancel_fetch, Finder.cancel_fetch) -/

/-- Embedding of `Post.cancel_fetch` (Post.py lines 354-360): if
`self.__inner_executor` is `None` (falsy) return immediately; otherwise set
`self.__should_cancel`, shut the executor down with `cancel_futures=True`,
and drop the executor reference.  `self.__data` is not touched. -/
def Post.cancel_fetch (p : Post) : Post :=
  if !p.inner_executor then p
  else { p with should_cancel := true, inner_executor := false }

/-- The finder state that `Finder.fetch_data` / `Finder.cancel_fetch`
manipulate: whether `self.__inner_executor` holds an executor object, and
the `self.__temp_posts` list (`None` when cleared). -/
structure FinderState where
  inner_executor : Bool
  temp_posts : Option (List Post)
deriving DecidableEq, Repr

/-- Python truthiness of `self.__temp_posts`: `None` and `[]` are falsy. -/
def tempTruthy : Option (List Post) → Bool
  | none => false
  | some [] => false
  | some (_ :: _) => true

/-- Embedding of `Finder.cancel_fetch` (Finder.py lines 420-434):
`if not self.__inner_executor or not self.__temp_posts: return`; otherwise
shut the executor down and drop it, re-check `self.__temp_posts` (dead
here), call `cancel_fetch` on each held post, and clear `__temp_posts` to
`None`.  The held Post objects survive at the caller; their state after
the per-post loop is `Finder.cancelled_posts`. -/
def Finder.cancel_fetch (f : FinderState) : FinderState :=
  if !f.inner_executor || !tempTruthy f.temp_posts then f
  else { inner_executor := false, temp_posts := none }

/-- The Post objects referenced by `__temp_posts` as the caller sees them
after `Finder.cancel_fetch` returns: untouched on the early-return path,
otherwise each has had its own `cancel_fetch` run by the loop at
Finder.py lines 430-431. -/
def Finder.cancelled_posts (f : FinderState) : List Post :=
  if !f.inner_executor || !tempTruthy f.temp_posts then f.temp_posts.getD []
  else (f.temp_posts.getD []).map Post.cancel_fetch

/-! ## filter_by_md5 (Finder.py lines 437-455) -/

/-- Inner loop of the `check` closure (Finder.py lines 448-453): walk the
post's md5 list against the accumulated `hash_list`; a hash already seen
rejects the post (hashes of this post appended before the hit remain in
`hash_list`), otherwise each hash is appended and the post is kept. -/
def check_hashes : List (Option String) → List (Option String) →
    Bool × List (Option String)
  | [], hash_list => (true, hash_list)
  | h :: rest, hash_list =>
      if h ∈ hash_list then (false, hash_list)
      else check_hashes rest (hash_list ++ [h])

/-- Embedding of `list(filter(check, posts))` in `Finder.filter_by_md5`
(Finder.py lines 437-455), with the `hash_list` state threaded through the
successive `check` calls.  Line 442 executes `post.generate_md5()` when
`generate_md5` is set and the post's md5 list is empty — the `Post` class
defines no attribute `generate_md5` (only the module-level helper
`_generate_md5` exists in Post.py), so Python attribute lookup raises
`AttributeError` there and the whole call aborts.  The
`type(post.md5) != list` warning branch of lines 444-446 is unreachable in
the embedding because a constructed post's md5 slot is always a list. -/
def Finder.filter_by_md5_loop (generate_md5 : Bool) :
    List Post → List (Option String) → Except PyErr (List Post)
  | [], _ => Except.ok []
  | p :: rest, hash_list =>
      if generate_md5 ∧ p.post_data.md5.length = 0 then
        Except.error (PyErr.attributeError
          "Post object has no attribute generate_md5")
      else
        let checked := check_hashes p.post_data.md5 hash_list
        (Finder.filter_by_md5_loop generate_md5 rest checked.2).map
          (fun tail => if checked.1 then p :: tail else tail)

/-- Embedding of `Finder.filter_by_md5` (Finder.py lines 437-455): the
`hash_list` starts empty. -/
def Finder.filter_by_md5 (posts : List Post) (generate_md5 : Bool) :
    Except PyErr (List Post) :=
  Finder.filter_by_md5_loop generate_md5 posts []

/-! ## download_fast_async dispatch (Finder.py lines 354-386) -/

/-- What `Finder.download_fast_async` computes before downloading: the
shuffled copy (`temp_post_list = post_list.copy(); shuffle(temp_post_list)`
at lines 375-376) and the list actually handed to
`aiometer.amap(request_function, post_list, ...)` at line 382. -/
structure DownloadDispatch where
  temp_post_list : List Post
  dispatched : List Post
deriving DecidableEq, Repr

/-- Embedding of the dispatch portion of `Finder.download_fast_async`
(Finder.py lines 367-386).  The shuffle outcome is supplied as a function
argument (`random.shuffle` permutes in place; the model applies the
permutation it produced).  Line 382 iterates `post_list`, the caller's
original list — not `temp_post_list`, which is never read again. -/
def Finder.download_fast_async_dispatch (shuffleOutcome : List Post → List Post)
    (post_list : List Post) : DownloadDispatch :=
  { temp_post_list := shuffleOutcome post_list
    dispatched := post_list }

/-! ## Concrete fixtures used by witnesses and counterexamples -/

/-- Constructor arguments for a small concrete post. -/
def sample_args : PostArgs :=
  { post_id := 7
    tags := ["tag1"]
    sources := ["src"]
    images := ["http://example.com/a/img7.png"]
    authors := ["au"]
    source := "danbooru"
    preview := "http://example.com/a/prev7.png"
    md5 := some [some "d41d8cd98f00b204e9800998ecf8427e"]
    rating := RatingArg.str "safe"
    parent_id := none
    dimensions := [(100, 200)]
    poster := "user"
    poster_id := 3
    name := some "A post" }

/-- The Post object that `mk_post sample_args` constructs. -/
def sample_post : Post :=
  { post_data := {
      post_id := 7
      tags := ["tag1"]
      sources := ["src"]
      images := ["http://example.com/a/img7.png"]
      authors := ["au"]
      source := "danbooru"
      preview := "http://example.com/a/prev7.png"
      md5 := [some "d41d8cd98f00b204e9800998ecf8427e"]
      rating := Rating.GENERAL
      parent_id := none
      poster := "user"
      poster_id := 3
      filenames := ["img7.png"]
      name := "A post"
      dimensions := [(100, 200)] }
    image := "http://example.com/a/img7.png"
    is_video := false
    is_zip := false
    data := []
    fetched_data := false
    inner_executor := false
    should_cancel := false
    md5_pending := false }

/-- Sanity link between the fixture arguments and the fixture object. -/
lemma mk_post_sample : mk_post sample_args = Except.ok sample_post := by decide

/-- A second distinct post (different id). -/
def sample_post_b : Post :=
  { sample_post with
    post_data := { sample_post.post_data with post_id := 8 } }

/-- Arguments whose media list is empty. -/
def args_no_images : PostArgs := { sample_args with images := [] }

/-- Arguments with one image but an empty dimensions list. -/
def args_mismatched_dims : PostArgs := { sample_args with dimensions := [] }

/-- A constructed post whose md5 list is (still) empty. -/
def post_no_md5 : Post :=
  { sample_post with
    post_data := { sample_post.post_data with md5 := [] }
    md5_pending := true }

/-! ## Helper lemmas -/

lemma defaultName_ne_empty (pid : Int) : defaultName pid ≠ "" := by
  intro h
  have hd := congrArg String.data h
  rw [defaultName, String.data_append] at hd
  simp at hd

lemma nameOf_ne_empty (pid : Int) (n : Option String) : nameOf pid n ≠ "" := by
  cases n with
  | none => exact defaultName_ne_empty pid
  | some s => by_cases h : s = "" <;> simp [nameOf, h, defaultName_ne_empty]

lemma nameOf_some (pid : Int) (x : String) (h : x ≠ "") :
    nameOf pid (some x) = x := by
  simp [nameOf, h]

lemma nameOf_some_nameOf (pid : Int) (n : Option String) :
    nameOf pid (some (nameOf pid n)) = nameOf pid n :=
  nameOf_some pid _ (nameOf_ne_empty pid n)

lemma md5Of_some_md5Of (m : Option (List (Option String))) :
    md5Of (some (md5Of m)) = md5Of m := by
  rcases m with _ | (_ | ⟨(_ | s), rest⟩) <;> simp [md5Of, md5Invalid]

lemma cancel_fetch_data (p : Post) : (Post.cancel_fetch p).data = p.data := by
  unfold Post.cancel_fetch
  split <;> rfl

/-- Shape of any successfully constructed post: the fields `mk_post`
computes, as functions of the arguments. -/
lemma mk_post_ok {a : PostArgs} {p : Post} (h : mk_post a = Except.ok p) :
    a.images ≠ [] ∧
    p.post_data.images = a.images ∧
    p.post_data.filenames = a.images.map filenameOf ∧
    p.post_data.md5 = md5Of a.md5 ∧
    p.post_data.name = nameOf a.post_id a.name ∧
    p.post_data.rating = ratingOf a.rating ∧
    p.post_data.post_id = a.post_id ∧
    p.post_data.dimensions = a.dimensions := by
  unfold mk_post at h
  cases himg : a.images with
  | nil => rw [himg] at h; simp at h
  | cons x xs =>
      rw [himg] at h
      simp only [Except.ok.injEq] at h
      subst h
      simp [himg]

/-! ## Claim theorems -/

/-- C10: constructing a Post with an empty media-reference list
(`images == []`) raises `IndexError` from the constructor (the first image
is read at Post.py line 211 to derive the main image and the flags), so
every successfully constructed Post has at least one media reference. -/
theorem C10_empty_images_index_error :
    (∀ a : PostArgs, a.images = [] →
      mk_post a = Except.error (PyErr.indexError "list index out of range"))
  ∧ (∀ (a : PostArgs) (p : Post), mk_post a = Except.ok p →
      0 < p.post_data.images.length) := by
  constructor
  · intro a h
    unfold mk_post
    rw [h]
  · intro a p h
    rcases mk_post_ok h with ⟨hne, himg, -⟩
    rw [himg]
    exact List.length_pos.mpr hne

/-- Witness for C10 at concrete inputs. -/
theorem C10_witness :
    mk_post args_no_images =
      Except.error (PyErr.indexError "list index out of range") ∧
    0 < sample_post.post_data.images.length :=
  ⟨C10_empty_images_index_error.1 args_no_images rfl,
   C10_empty_images_index_error.2 sample_args sample_post (by decide)⟩

/-- C3 counterexample: the constructor succeeds with one image and an
empty dimensions list, so `len(images) == len(dimensions)` is not an
invariant of construction (the code never checks the dimensions length). -/
theorem C3_counterexample :
    (mk_post args_mismatched_dims).map
      (fun p => (p.post_data.images.length, p.post_data.filenames.length,
                 p.post_data.dimensions.length)) =
      Except.ok (1, 1, 0) := by decide

/-- C3 as amended: on every successful construction, `filenames` is
derived from `images` entry by entry, so those two lists are index-aligned
and of equal length; `dimensions` is stored as supplied without any length
check. -/
theorem C3_filenames_aligned (a : PostArgs) (p : Post)
    (h : mk_post a = Except.ok p) :
    p.post_data.filenames.length = p.post_data.images.length ∧
    p.post_data.filenames = p.post_data.images.map filenameOf ∧
    p.post_data.dimensions = a.dimensions := by
  rcases mk_post_ok h with ⟨-, himg, hfn, -, -, -, -, hdim⟩
  rw [himg, hfn, hdim]
  exact ⟨by simp, rfl, rfl⟩

/-- Witness for C3's amended theorem at a concrete input. -/
theorem C3_witness :
    sample_post.post_data.filenames.length =
      sample_post.post_data.images.length :=
  (C3_filenames_aligned sample_args sample_post (by decide)).1

/-- C7: rating derivation is a case-insensitive total lookup — "safe",
"s", "g", "general" in any letter case map to GENERAL, null maps to
UNKNOWN, any unrecognized string maps to UNKNOWN, and the result is always
one of the five enum values. -/
theorem C7_rating_lookup :
    Post.get_rating none = Rating.UNKNOWN
  ∧ (∀ s : String, str_lower s ∈ ["safe", "s", "g", "general"] →
      Post.get_rating (some s) = Rating.GENERAL)
  ∧ (∀ s : String,
      str_lower s ∉ Post.rating_general →
      str_lower s ∉ Post.rating_sensitive →
      str_lower s ∉ Post.rating_questionable →
      str_lower s ∉ Post.rating_explicit →
      Post.get_rating (some s) = Rating.UNKNOWN)
  ∧ (∀ x : Option String,
      Post.get_rating x = Rating.GENERAL ∨
      Post.get_rating x = Rating.SENSITIVE ∨
      Post.get_rating x = Rating.QUESTIONABLE ∨
      Post.get_rating x = Rating.EXPLICIT ∨
      Post.get_rating x = Rating.UNKNOWN) := by
  refine ⟨rfl, ?_, ?_, ?_⟩
  · intro s hs
    simp only [List.mem_cons, List.not_mem_nil, or_false] at hs
    rcases hs with h | h | h | h <;>
      simp [Post.get_rating, Post.rating_general, h]
  · intro s h1 h2 h3 h4
    simp [Post.get_rating, h1, h2, h3, h4]
  · intro x
    cases hgr : Post.get_rating x <;> simp [hgr]

/-- Witness for C7 at concrete inputs. -/
theorem C7_witness :
    Post.get_rating (some "SaFe") = Rating.GENERAL ∧
    Post.get_rating (some "NotARating") = Rating.UNKNOWN :=
  ⟨C7_rating_lookup.2.1 "SaFe" (by decide),
   C7_rating_lookup.2.2.1 "NotARating" (by decide) (by decide) (by decide)
     (by decide)⟩

/-- C2, evaluated at the failing input: `download_fast_async` builds the
shuffled copy but hands the caller's original `post_list` to
`aiometer.amap`, so the dispatch order is the original order — here the
shuffle outcome reverses the two posts, yet `dispatched` is unchanged. -/
theorem C2_dispatch_ignores_shuffle :
    (Finder.download_fast_async_dispatch List.reverse
        [sample_post, sample_post_b]).dispatched = [sample_post, sample_post_b]
  ∧ (Finder.download_fast_async_dispatch List.reverse
        [sample_post, sample_post_b]).temp_post_list =
      [sample_post_b, sample_post]
  ∧ ([sample_post, sample_post_b] : List Post) ≠
      [sample_post_b, sample_post] :=
  ⟨rfl, rfl, by decide⟩

/-- C5, evaluated at the failing input: with `generate_md5=True` and a
post whose md5 list is empty, `filter_by_md5` executes
`post.generate_md5()` — an attribute the Post class does not define — and
aborts with `AttributeError` instead of computing the hashes; with the
flag off the same call succeeds and keeps the post. -/
theorem C5_generate_md5_attribute_error :
    Finder.filter_by_md5 [post_no_md5] true =
      Except.error (PyErr.attributeError
        "Post object has no attribute generate_md5")
  ∧ Finder.filter_by_md5 [post_no_md5] false = Except.ok [post_no_md5] :=
  ⟨rfl, rfl⟩

/-- C8: unscoped `get_post` returns the first non-`None` result scanning
the registered adapters in registration order, independent of what comes
after the hit (short-circuit), and `None` when every adapter misses. -/
theorem C8_get_post_first_match :
    (∀ (pre : List (String × GetPostFun)) (name : String) (sf : GetPostFun)
       (rest : List (String × GetPostFun)) (pid : Int) (r : Post),
       (∀ c ∈ pre, c.2 pid = none) → sf pid = some r →
       Finder.get_post_fanout (pre ++ (name, sf) :: rest) pid = some r)
  ∧ (∀ (clients : List (String × GetPostFun)) (pid : Int),
       (∀ c ∈ clients, c.2 pid = none) →
       Finder.get_post_fanout clients pid = none) := by
  constructor
  · intro pre
    induction pre with
    | nil =>
        intro name sf rest pid r _ hsf
        simp [Finder.get_post_fanout, hsf]
    | cons c cs ih =>
        intro name sf rest pid r hpre hsf
        obtain ⟨cn, cf⟩ := c
        have hc : cf pid = none := hpre (cn, cf) (List.mem_cons_self _ _)
        simp only [List.cons_append, Finder.get_post_fanout, hc]
        exact ih name sf rest pid r
          (fun x hx => hpre x (List.mem_cons_of_mem _ hx)) hsf
  · intro clients pid
    induction clients with
    | nil => intro _; rfl
    | cons c cs ih =>
        intro hall
        obtain ⟨cn, cf⟩ := c
        have hc : cf pid = none := hall (cn, cf) (List.mem_cons_self _ _)
        simp only [Finder.get_post_fanout, hc]
        exact ih (fun x hx => hall x (List.mem_cons_of_mem _ hx))

/-- Three concrete lookup clients: the first two miss, the third hits
id 7. -/
def lookup_clients : List (String × GetPostFun) :=
  [("danbooru", fun _ => none),
   ("rule34", fun _ => none),
   ("konachan", fun pid => if pid = 7 then some sample_post else none)]

/-- Witness for C8 at concrete inputs. -/
theorem C8_witness :
    Finder.get_post_fanout lookup_clients 7 = some sample_post ∧
    Finder.get_post_fanout lookup_clients 99 = none := by
  constructor
  · exact C8_get_post_first_match.1
      [("danbooru", fun _ => none), ("rule34", fun _ => none)]
      "konachan" (fun pid => if pid = 7 then some sample_post else none)
      [] 7 sample_post
      (by
        intro c hc
        simp only [List.mem_cons, List.not_mem_nil, or_false] at hc
        rcases hc with rfl | rfl <;> rfl)
      rfl
  · exact C8_get_post_first_match.2 lookup_clients 99
      (by
        intro c hc
        simp only [lookup_clients, List.mem_cons, List.not_mem_nil,
          or_false] at hc
        rcases hc with rfl | rfl | rfl <;> rfl)

/-- An idle finder state (nothing in flight). -/
def idle_finder : FinderState := { inner_executor := false, temp_posts := none }

/-- C9: both cancel operations are total functions of the state (no
exception path exists); cancelling when idle is the identity, a second
cancel after a first is a no-op, and cancellation never touches the
fetched `data` slots — at the Post level directly, and at the Finder
level for every post the fan-out loop cancels. -/
theorem C9_cancel_fetch_safe :
    (∀ p : Post, p.inner_executor = false → Post.cancel_fetch p = p)
  ∧ (∀ p : Post,
      Post.cancel_fetch (Post.cancel_fetch p) = Post.cancel_fetch p)
  ∧ (∀ p : Post, (Post.cancel_fetch p).data = p.data)
  ∧ (∀ f : FinderState, f.inner_executor = false → Finder.cancel_fetch f = f)
  ∧ (∀ f : FinderState,
      Finder.cancel_fetch (Finder.cancel_fetch f) = Finder.cancel_fetch f)
  ∧ (∀ f : FinderState,
      (Finder.cancelled_posts f).map Post.data =
        (f.temp_posts.getD []).map Post.data) := by
  refine ⟨?_, ?_, cancel_fetch_data, ?_, ?_, ?_⟩
  · intro p h
    simp [Post.cancel_fetch, h]
  · intro p
    cases hp : p.inner_executor <;> simp [Post.cancel_fetch, hp]
  · intro f h
    simp [Finder.cancel_fetch, h]
  · intro f
    by_cases h : (!f.inner_executor || !tempTruthy f.temp_posts) = true
    · have h1 : Finder.cancel_fetch f = f := by
        unfold Finder.cancel_fetch
        rw [if_pos h]
      rw [h1, h1]
    · have h1 : Finder.cancel_fetch f =
          { inner_executor := false, temp_posts := none } := by
        unfold Finder.cancel_fetch
        rw [if_neg h]
      rw [h1]
      rfl
  · intro f
    unfold Finder.cancelled_posts
    split
    · rfl
    · have hfun : Post.data ∘ Post.cancel_fetch = Post.data :=
        funext cancel_fetch_data
      rw [List.map_map, hfun]

/-- Witness for C9 at concrete idle states. -/
theorem C9_witness :
    Post.cancel_fetch sample_post = sample_post ∧
    Finder.cancel_fetch idle_finder = idle_finder :=
  ⟨C9_cancel_fetch_safe.1 sample_post rfl,
   C9_cancel_fetch_safe.2.2.2.1 idle_finder rfl⟩

/-- No tag aliases configured. -/
def no_aliases : String → List (String × String) := fun _ => []

/-- Three registered clients: the middle one raises. -/
def failing_clients : List (String × SearchFun) :=
  [("danbooru", fun _ => Except.ok [sample_post]),
   ("rule34", fun _ => Except.error "ConnectionError"),
   ("konachan", fun _ => Except.ok [sample_post_b])]

/-- C1 counterexample: with the middle adapter raising during the
unscoped fan-out, `search_posts` propagates that exception — it does not
return the concatenation of the other two adapters' results. -/
theorem C1_counterexample :
    Finder.search_posts_fanout no_aliases failing_clients "tag" =
      Except.error "ConnectionError" ∧
    (Except.error "ConnectionError" : Except String (List Post)) ≠
      Except.ok [sample_post, sample_post_b] :=
  ⟨rfl, by decide⟩

/-- C1 as amended: the fan-out loop has no exception isolation — the
first adapter that raises aborts the whole search with that exception
(results gathered before it are discarded), and only when every adapter
returns normally does `search_posts` return the concatenation of all
results in registration order. -/
theorem C1_error_propagates :
    (∀ (aliases : String → List (String × String))
       (pre : List (String × SearchFun)) (name : String) (sf : SearchFun)
       (rest : List (String × SearchFun)) (tags err : String),
       (∀ c ∈ pre, ∃ l, c.2 (applyAliases (aliases c.1) tags) = Except.ok l) →
       sf (applyAliases (aliases name) tags) = Except.error err →
       Finder.search_posts_fanout aliases (pre ++ (name, sf) :: rest) tags =
         Except.error err)
  ∧ (∀ (aliases : String → List (String × String))
       (clients : List (String × SearchFun)) (tags : String)
       (res : String × SearchFun → List Post),
       (∀ c ∈ clients,
         c.2 (applyAliases (aliases c.1) tags) = Except.ok (res c)) →
       Finder.search_posts_fanout aliases clients tags =
         Except.ok ((clients.map res).flatten)) := by
  constructor
  · intro aliases pre
    induction pre with
    | nil =>
        intro name sf rest tags err _ hsf
        simp [Finder.search_posts_fanout, hsf]
    | cons c cs ih =>
        intro name sf rest tags err hpre hsf
        obtain ⟨cn, cf⟩ := c
        obtain ⟨l, hl⟩ := hpre (cn, cf) (List.mem_cons_self _ _)
        have hl' : cf (applyAliases (aliases cn) tags) = Except.ok l := hl
        simp only [List.cons_append, Finder.search_posts_fanout, hl',
          List.append_eq]
        rw [ih name sf rest tags err
          (fun x hx => hpre x (List.mem_cons_of_mem _ hx)) hsf]
  · intro aliases clients tags res
    induction clients with
    | nil => intro _; rfl
    | cons c cs ih =>
        intro hall
        obtain ⟨cn, cf⟩ := c
        have hc : cf (applyAliases (aliases cn) tags) =
            Except.ok (res (cn, cf)) :=
          hall (cn, cf) (List.mem_cons_self _ _)
        simp only [Finder.search_posts_fanout, hc]
        rw [ih (fun x hx => hall x (List.mem_cons_of_mem _ hx))]
        simp

/-- Witness for C1's amended theorem at the concrete failing clients. -/
theorem C1_witness :
    Finder.search_posts_fanout no_aliases failing_clients "tag" =
      Except.error "ConnectionError" :=
  C1_error_propagates.1 no_aliases
    [("danbooru", fun _ => Except.ok [sample_post])] "rule34"
    (fun _ => Except.error "ConnectionError")
    [("konachan", fun _ => Except.ok [sample_post_b])] "tag" "ConnectionError"
    (by
      intro c hc
      simp only [List.mem_cons, List.not_mem_nil, or_false] at hc
      subst hc
      exact ⟨[sample_post], rfl⟩)
    rfl

/-- C4: importing a dict that lacks at least one required field fails —
the `KeyError` handler logs a message naming the first missing required
key (in the order the constructor arguments read them) and `import_post`
returns `None` rather than a Post. -/
theorem C4_import_first_missing_key (d : PostDict) (k : String)
    (h : firstMissingKey d = some k) :
    import_post d = Except.ok (ImportResult.invalid k) := by
  obtain ⟨pid, tg, srcs, imgs, aus, src, pv, m5, rt, par, po, poid, fns,
    nm, dms⟩ := d
  unfold firstMissingKey at h
  unfold import_post
  rcases pid with _ | pid
  · simp_all
  rcases tg with _ | tg
  · simp_all
  rcases srcs with _ | srcs
  · simp_all
  rcases imgs with _ | imgs
  · simp_all
  rcases aus with _ | aus
  · simp_all
  rcases src with _ | src
  · simp_all
  rcases pv with _ | pv
  · simp_all
  rcases m5 with _ | m5
  · simp_all
  rcases rt with _ | rt
  · simp_all
  rcases par with _ | par
  · simp_all
  rcases dms with _ | dms
  · simp_all
  rcases po with _ | po
  · simp_all
  rcases poid with _ | poid
  · simp_all
  rcases nm with _ | nm
  · simp_all
  simp at h

/-- An exported post dictionary with the `tags` key removed. -/
def dict_missing_tags : PostDict := { Post.post_dict sample_post with tags := none }

/-- Witness for C4 at a concrete incomplete dictionary. -/
theorem C4_witness :
    import_post dict_missing_tags = Except.ok (ImportResult.invalid "tags") :=
  C4_import_first_missing_key dict_missing_tags "tags" (by decide)

/-- Projection used to state C6 without an existential: an import outcome
is mapped to the persistent record plus the derived display fields, or
`none` when the import returned `None`. -/
def importProj : ImportResult → Option (PostData × String × Bool × Bool)
  | ImportResult.ok q => some (q.post_data, q.image, q.is_video, q.is_zip)
  | ImportResult.invalid _ => none

/-- C6: re-importing the dict produced by export (`post_dict`) succeeds
and reproduces every persistent field of the original record (and the
derived main image and flags); the transient fetched `data` payload and
the parent/children relations are freshly initialised instead. -/
theorem C6_export_import_roundtrip (a : PostArgs) (p : Post)
    (h : mk_post a = Except.ok p) :
    (import_post (Post.post_dict p)).map importProj =
      Except.ok (some (p.post_data, p.image, p.is_video, p.is_zip)) := by
  unfold mk_post at h
  cases himg : a.images with
  | nil => rw [himg] at h; simp at h
  | cons x xs =>
      rw [himg] at h
      simp only [Except.ok.injEq] at h
      subst h
      simp only [Post.post_dict, import_post, mk_post, Except.map, importProj]
      simp [md5Of_some_md5Of, nameOf_some_nameOf, ratingOf]

/-- Witness for C6 at the concrete sample post. -/
theorem C6_witness :
    (import_post (Post.post_dict sample_post)).map importProj =
      Except.ok (some (sample_post.post_data, sample_post.image,
        sample_post.is_video, sample_post.is_zip)) :=
  C6_export_import_roundtrip sample_args sample_post (by decide)

end Nokufind
